import Mathlib

/-!
Shallow embedding of the `eirriel/demoapp` Pulumi infrastructure code
(`src/infra/...`), together with theorems settling the specification
claims about it.  Python source constructs (f-strings, `str.replace`,
dict `.get` with default, keyword-argument binding, `pulumi.Config`
lookups) are translated into executable Lean definitions.
-/

namespace DemoApp

/-! ## App component: service-account trust condition
    (src/infra/modules/app/app.py, lines 77-99)

The condition variable is built by
`self.kube_issuer.apply(lambda ki: f"...")` where the f-string is the
issuer with every occurrence of the literal `https://` deleted (Python
`str.replace('https://', '')`), followed by `:sub`; the condition value
is the f-string `system:serviceaccount:` + namespace + `:` + component
name.  `stripHttps` implements Python's left-to-right, non-overlapping
delete-all-occurrences replacement for the fixed pattern used in the
source. -/

def stripHttps : List Char → List Char
  | 'h' :: 't' :: 't' :: 'p' :: 's' :: ':' :: '/' :: '/' :: rest => stripHttps rest
  | c :: rest => c :: stripHttps rest
  | [] => []

/-- Whether `https://` occurs anywhere in the character list. -/
def hasHttps : List Char → Bool
  | 'h' :: 't' :: 't' :: 'p' :: 's' :: ':' :: '/' :: '/' :: _ => true
  | _ :: rest => hasHttps rest
  | [] => false

/-- One `aws.iam.GetPolicyDocumentStatementConditionArgs` of the assume-role
policy document. -/
structure TrustCondition where
  test : String
  variable_ : String
  values : List String
  deriving DecidableEq, Repr

/-- The single condition of `service_role_assume_policy` in
`KubernetesService.__init__` (app.py lines 88-96), as a function of the
resolved `kube_issuer`, `namespace` and the component resource name. -/
def serviceRoleTrustCondition (kube_issuer namespace_ name : String) : TrustCondition :=
  { test := "StringEquals"
    variable_ := String.mk (stripHttps kube_issuer.data) ++ ":sub"
    values := ["system:serviceaccount:" ++ namespace_ ++ ":" ++ name] }

/-! ## App component: HorizontalPodAutoscaler spec
    (src/infra/modules/app/app.py, lines 213-256)

The HPA spec is built entirely from literals: `min_replicas=1`,
`max_replicas=6`, and two Resource metrics (cpu, memory) whose targets
have `type="Utilization"` and `average_value="60"`.  No argument of
`KubernetesServiceArgs` flows into it. -/

structure MetricTargetArgs where
  type : String
  average_value : String
  deriving DecidableEq, Repr

structure ResourceMetricSourceArgs where
  name : String
  target : MetricTargetArgs
  deriving DecidableEq, Repr

structure MetricSpecArgs where
  type : String
  resource : ResourceMetricSourceArgs
  deriving DecidableEq, Repr

structure HorizontalPodAutoscalerSpec where
  min_replicas : Nat
  max_replicas : Nat
  metrics : List MetricSpecArgs
  deriving DecidableEq, Repr

/-- The `HorizontalPodAutoscalerSpecArgs` declared at app.py lines 222-252
(scale target ref omitted); it takes no inputs because the source uses only
literals there. -/
def autoscalingSpec : HorizontalPodAutoscalerSpec :=
  { min_replicas := 1
    max_replicas := 6
    metrics :=
      [ { type := "Resource"
          resource :=
            { name := "cpu"
              target := { type := "Utilization", average_value := "60" } } }
      , { type := "Resource"
          resource :=
            { name := "memory"
              target := { type := "Utilization", average_value := "60" } } } ] }

/-- The replica bounds declared by the application stack configuration in the
round-trip scenario (config keys `app_min_replicas` / `app_max_replicas`). -/
def declaredBoundsExample : Nat × Nat := (2, 4)

/-! ## Application stack entrypoint: keyword-argument binding
    (src/infra/app/__main__.py lines 28-50 calling
     src/infra/modules/app/app.py lines 6-36)

Python binds a call made purely with keyword arguments successfully iff
every keyword names a declared parameter and every parameter without a
default is supplied; otherwise the call raises `TypeError`. -/

structure PyParam where
  name : String
  has_default : Bool
  deriving DecidableEq, Repr

/-- The parameters of `KubernetesServiceArgs.__init__` (app.py lines 7-21),
`self` excluded; only `ingress_port` has a default. -/
def kubernetesServiceArgsParams : List PyParam :=
  [ { name := "base_tags", has_default := false }
  , { name := "app_name", has_default := false }
  , { name := "container_ports", has_default := false }
  , { name := "environment_variables", has_default := false }
  , { name := "image", has_default := false }
  , { name := "kube_issuer", has_default := false }
  , { name := "namespace", has_default := false }
  , { name := "openid_connector", has_default := false }
  , { name := "public_load_balancer", has_default := false }
  , { name := "secrets_data", has_default := false }
  , { name := "service_permissions", has_default := false }
  , { name := "replicas", has_default := false }
  , { name := "hostname_list", has_default := false }
  , { name := "ingress_port", has_default := true } ]

/-- The keyword arguments of the `KubernetesServiceArgs(...)` call in
src/infra/app/__main__.py lines 30-49. -/
def appStackCallKwargs : List String :=
  [ "base_tags", "app_name", "container_ports", "environment_variables"
  , "hostname_list", "image", "ingress_port", "kube_issuer"
  , "max_replicas", "min_replicas", "namespace", "openid_connector"
  , "public_load_balancer", "secrets_data", "service_permissions" ]

/-- Python keyword-argument binding for a call with no positional arguments:
succeeds iff every keyword is a declared parameter name and every parameter
without a default is supplied. -/
def kwargsBindOk (params : List PyParam) (kwargs : List String) : Bool :=
  kwargs.all (fun k => params.any (fun p => p.name == k)) &&
  params.all (fun p => p.has_default || kwargs.contains p.name)

/-- One top-level evaluation step of the application stack entrypoint. -/
inductive AppStackEvent where
  | stackReference (target : String)
  | namespaceDecl (resource_name : String) (metadata_name : String)
  | componentDecl (resource_name : String)
  | typeError (constructor : String)
  deriving DecidableEq, Repr

/-- The top-level statements of src/infra/app/__main__.py evaluated in source
order: the two `StackReference` declarations (lines 8-9; the vpc one at line 7
is commented out), the Namespace resource declaration (lines 14-19, metadata
name `demoapp`), then the `KubernetesService(KubernetesServiceArgs(...))` call
(lines 28-50): if its keyword binding succeeded the component would be
declared, otherwise evaluation stops with a TypeError. -/
def appStackEvalTrace (envName : String) : List AppStackEvent :=
  [ AppStackEvent.stackReference "organization/eks/eks-demo"
  , AppStackEvent.stackReference "organization/db/db-demo"
  , AppStackEvent.namespaceDecl (envName ++ "-ns") "demoapp" ]
  ++ (if kwargsBindOk kubernetesServiceArgsParams appStackCallKwargs
      then [AppStackEvent.componentDecl (envName ++ "-app")]
      else [AppStackEvent.typeError "KubernetesServiceArgs"])

/-! ## Database component: final-snapshot configuration
    (src/infra/modules/db/db.py, lines 150-176)

`aws.rds.Cluster` is declared with
`final_snapshot_identifier=f"{self.name}-db-cluster" if self.is_prod_database else None`
and `skip_final_snapshot=not self.is_prod_database`. -/

structure ClusterSnapshotArgs where
  skip_final_snapshot : Bool
  final_snapshot_identifier : Option String
  deriving DecidableEq, Repr

/-- The snapshot-related fields of the `serverless_db` cluster declaration. -/
def serverlessDbSnapshotArgs (name : String) (is_prod_database : Bool) : ClusterSnapshotArgs :=
  { final_snapshot_identifier :=
      if is_prod_database then some (name ++ "-db-cluster") else none
    skip_final_snapshot := !is_prod_database }

/-! ## App component: per-hostname DNS records
    (src/infra/modules/app/app.py, lines 287-341)

Inside `if len(self.hostname_list) > 0`, the loop
`for nrec, rec in enumerate(self.hostname_list)` appends an
`aws.route53.Record` exactly when `rec.get('create_record', True)` holds. -/

structure HostnameEntry where
  name : String
  create_record : Option Bool
  deriving DecidableEq, Repr

structure Route53Record where
  resource_name : String
  record_name : String
  type : String
  ttl : Nat
  records : List String
  deriving DecidableEq, Repr

/-- The `self.records` list built by the loop at app.py lines 325-341, each
record paired with the `enumerate` index `nrec` it was created for. -/
def hostnameRecords (component_name public_load_balancer : String)
    (hostname_list : List HostnameEntry) : List (Nat × Route53Record) :=
  if hostname_list.length > 0 then
    hostname_list.enum.filterMap (fun nr =>
      if nr.2.create_record.getD true then
        some (nr.1,
          { resource_name := component_name ++ "-record" ++ toString nr.1
            record_name := nr.2.name
            type := "CNAME"
            ttl := 300
            records := [public_load_balancer] })
      else none)
  else []

/-! ## App component: conditional IAM policy and attachment
    (src/infra/modules/app/app.py, lines 63-75 and 129-137)

`aws.iam.Policy` is declared only under `if len(self.service_permissions) > 0`
and the `aws.iam.RolePolicyAttachment` under the same guard; the role itself
is unconditional. -/

structure GetPolicyDocumentStatementArgs where
  effect : String
  actions : List String
  resources : List String
  deriving DecidableEq, Repr

structure ServiceIamResources where
  policy : Option String
  service_role : String
  role_policy_attachment : Option String
  deriving DecidableEq, Repr

/-- The IAM resources (by declared resource name) created by
`KubernetesService.__init__` as a function of `service_permissions`. -/
def kubernetesServiceIam (name : String)
    (service_permissions : List GetPolicyDocumentStatementArgs) : ServiceIamResources :=
  { policy :=
      if service_permissions.length > 0 then some (name ++ "-policy") else none
    service_role := name ++ "-role"
    role_policy_attachment :=
      if service_permissions.length > 0 then some (name ++ "-roleattach") else none }

/-! ## Configuration and stack-reference lookup semantics
    (pulumi.Config.get / get_object return None when the key is absent;
     pulumi.Config.require and StackReference.require_output fail the
     stack evaluation when the key is absent) -/

/-- `pulumi.Config.get` / `get_object`: `none` when absent, no failure. -/
def config_get (cfg : List (String × String)) (key : String) : Option String :=
  (cfg.find? (fun p => p.1 == key)).map (fun p => p.2)

/-- `pulumi.Config.require`: fails stack evaluation when the key is absent. -/
def config_require (cfg : List (String × String)) (key : String) : Except String String :=
  match config_get cfg key with
  | some v => Except.ok v
  | none => Except.error ("Missing required configuration variable " ++ key)

/-- `pulumi.StackReference.require_output`: fails the stack evaluation when
the referenced output is absent. -/
def require_output (outs : List (String × String)) (key : String) : Except String String :=
  match (outs.find? (fun p => p.1 == key)).map (fun p => p.2) with
  | some v => Except.ok v
  | none => Except.error ("Required output " ++ key ++ " does not exist on stack")

/-- The inputs the database stack hands to `RdsDbArgs`; `cidr_blocks` and
`storage_size` are `Option` because src/infra/db/__main__.py reads them with
`config.get_object` / `config.get`, which yield `None` when absent, even
though `RdsDbArgs.__init__` declares `cidr_blocks` without a default. -/
structure RdsDbStackInputs where
  cidr_blocks : Option String
  major_version : String
  private_subnets : String
  storage_size : Option String
  vpc_id : String
  zone_name : String
  deriving DecidableEq, Repr

/-- Evaluation of the database stack entrypoint (src/infra/db/__main__.py
lines 12-23), reading inputs in source order: `cidr_blocks` via `get_object`,
`db_major_version` via `require`, `private_subnet_ids` and `vpc_id` via
`require_output`, `db_storage_size` via `get`. -/
def dbStackEval (cfg outs : List (String × String)) : Except String RdsDbStackInputs :=
  let cb := config_get cfg "cidr_blocks"
  match config_require cfg "db_major_version" with
  | Except.error e => Except.error e
  | Except.ok mv =>
    match require_output outs "private_subnet_ids" with
    | Except.error e => Except.error e
    | Except.ok ps =>
      let ss := config_get cfg "db_storage_size"
      match require_output outs "vpc_id" with
      | Except.error e => Except.error e
      | Except.ok vid =>
        Except.ok
          { cidr_blocks := cb
            major_version := mv
            private_subnets := ps
            storage_size := ss
            vpc_id := vid
            zone_name := "cloudlan.net" }

/-! ## Database component: admin password secrecy
    (src/infra/modules/db/db.py lines 139-147, 164, 204-214 and
     src/infra/db/__main__.py line 26)

A Pulumi output value carries a secret flag; `.apply` preserves it.  The
`RandomPassword` resource is declared with
`additional_secret_outputs=['result']`, so its `result` output is
secret-flagged; `result` is routed into exactly three sinks. -/

structure OutputVal (α : Type) where
  value : α
  secret : Bool
  deriving DecidableEq, Repr

/-- Pulumi `Output.apply`: transforms the value, preserves the secret flag. -/
def OutputVal.applyFn {α β : Type} (o : OutputVal α) (f : α → β) : OutputVal β :=
  { value := f o.value, secret := o.secret }

structure RandomPasswordArgs where
  length : Nat
  special : Bool
  additional_secret_outputs : List String
  deriving DecidableEq, Repr

/-- The `random.RandomPassword` declaration at db.py lines 139-147. -/
def db_password : RandomPasswordArgs :=
  { length := 32, special := false, additional_secret_outputs := ["result"] }

/-- The `result` output of `db_password`: secret-flagged because `result` is
listed in `additional_secret_outputs`. -/
def db_password_result (pw : String) : OutputVal String :=
  { value := pw, secret := db_password.additional_secret_outputs.contains "result" }

/-- Sink 1: `master_password=self.db_password.result` (db.py line 164), a
secret-typed field of `aws.rds.Cluster`. -/
def cluster_master_password (pw : String) : OutputVal String :=
  db_password_result pw

/-- The `json.dumps({"username": "root", "password": p})` payload built at
db.py lines 207-210. -/
def proxySecretJson (p : String) : String :=
  "\x7b\"username\": \"root\", \"password\": \"" ++ p ++ "\"\x7d"

/-- Sink 2: `secret_string=self.db_password.result.apply(...)` (db.py lines
204-214), a secret-typed field of `aws.secretsmanager.SecretVersion`. -/
def db_proxy_secret_version_secret_string (pw : String) : OutputVal String :=
  (db_password_result pw).applyFn proxySecretJson

/-- Sink 3: `pulumi.export('db_admin_password', db.db_password.result)`
(src/infra/db/__main__.py line 26); an export of a secret-flagged value is a
secret-marked stack output. -/
def export_db_admin_password (pw : String) : OutputVal String :=
  db_password_result pw

/-- The three sinks `db_password.result` is routed into — the complete list
of its uses in src. -/
inductive DbPasswordSink where
  | clusterMasterPassword
  | proxySecretVersionSecretString
  | stackOutputDbAdminPassword
  deriving DecidableEq, Repr

def dbPasswordSinks : List DbPasswordSink :=
  [ DbPasswordSink.clusterMasterPassword
  , DbPasswordSink.proxySecretVersionSecretString
  , DbPasswordSink.stackOutputDbAdminPassword ]

/-- The output value arriving at each sink. -/
def sinkValue (pw : String) : DbPasswordSink → OutputVal String
  | DbPasswordSink.clusterMasterPassword => cluster_master_password pw
  | DbPasswordSink.proxySecretVersionSecretString => db_proxy_secret_version_secret_string pw
  | DbPasswordSink.stackOutputDbAdminPassword => export_db_admin_password pw

/-! ## Network stack
    (src/infra/vpc/__main__.py lines 12-30)

The stack entrypoint is in src, but the `Vpc` component it imports
(`modules/vpc/vpc.py`) is not: only `modules/vpc/iam_helpers.py` is present.
The component is therefore modelled from the spec. -/

/-- Modelled from the spec: the `Vpc` component imported by
src/infra/vpc/__main__.py is missing from src (only `iam_helpers.py` exists
under modules/vpc).  Spec section 4.1: "given a base address block and a pair
of availability zones, produce a network with paired public/private subnets
per zone, NAT egress for private subnets", outputs being the network id, an
ordered list of public subnet ids, an ordered list of private subnet ids and
a list of NAT gateway public addresses — one public subnet, one private
subnet and one NAT gateway (with elastic IP) per availability zone. -/
structure VpcModel where
  vpc_id : String
  public_subnets : List String
  private_subnets : List String
  nat_elastic_ip_addresses : List String
  deriving DecidableEq, Repr

/-- Modelled from the spec: per-zone paired subnets and NAT egress. -/
def vpcBuild (name base_cidr : String) (availability_zone_names : List String) : VpcModel :=
  { vpc_id := name ++ "-vpc-id"
    public_subnets := availability_zone_names.map (fun z => name ++ "-public-" ++ z)
    private_subnets := availability_zone_names.map (fun z => name ++ "-private-" ++ z)
    nat_elastic_ip_addresses := availability_zone_names.map (fun z => name ++ "-nat-eip-" ++ z) }

structure VpcStackExports where
  vpc_id : String
  vpc_cidr : String
  public_subnet_ids : List String
  private_subnet_ids : List String
  nat_gateway_ips : List String
  deriving DecidableEq, Repr

/-- The exports of src/infra/vpc/__main__.py lines 26-30 for a given CIDR and
zone list (debugging aside, the id lists are element-wise projections of the
component's subnet/EIP lists). -/
def vpcStackExports (envName vpc_cidr : String) (zones : List String) : VpcStackExports :=
  let v := vpcBuild (envName ++ "-vpc") vpc_cidr zones
  { vpc_id := v.vpc_id
    vpc_cidr := vpc_cidr
    public_subnet_ids := v.public_subnets.map (fun s => s)
    private_subnet_ids := v.private_subnets.map (fun s => s)
    nat_gateway_ips := v.nat_elastic_ip_addresses.map (fun i => i) }

/-! ## Cluster-services component: aws-auth ConfigMap mapRoles
    (src/infra/modules/svcs/services.py lines 83-96 and 230-249) -/

structure MapRoleEntry where
  rolearn : String
  username : String
  groups : List String
  deriving DecidableEq, Repr

/-- `ServicesResources.get_node_roles` (services.py lines 230-249): the list
that is YAML-serialized into the `mapRoles` key of the `aws-auth` ConfigMap. -/
def get_node_roles (worker_role : String) : List MapRoleEntry :=
  [ { rolearn := worker_role
      username := "system:node:\x7b\x7bEC2PrivateDNSName\x7d\x7d"
      groups := ["system:bootstrappers", "system:nodes"] }
  , { rolearn := "arn:aws:iam::389169665533:role/ci-role"
      username := "ci-user"
      groups := ["system:masters"] } ]

/-- The hardcoded external CI role entry. -/
def ciRoleEntry : MapRoleEntry :=
  { rolearn := "arn:aws:iam::389169665533:role/ci-role"
    username := "ci-user"
    groups := ["system:masters"] }

/-- `mapRoles` value of the `cluster_auth` ConfigMap (services.py line 90):
`worker_role_arn.apply(lambda r: self.get_node_roles(r))`. -/
def cluster_auth_map_roles (worker_role_arn : OutputVal String) : OutputVal (List MapRoleEntry) :=
  worker_role_arn.applyFn get_node_roles

/-! ## Helper lemmas -/

theorem stripHttps_of_not_hasHttps : ∀ l, hasHttps l = false → stripHttps l = l := by
  intro l
  induction l using stripHttps.induct with
  | case1 rest ih =>
    intro h
    rw [hasHttps] at h
    exact absurd h (by simp)
  | case2 c rest hne ih =>
    intro h
    rw [hasHttps.eq_2 c rest hne] at h
    rw [stripHttps.eq_2 c rest hne, ih h]
  | case3 =>
    intro _
    rfl

/-- Deleting every occurrence of `https://` from a string that starts with
the scheme and contains no further occurrence yields exactly the
scheme-stripped remainder — so on such issuers Python's
`replace('https://', '')` coincides with stripping the scheme prefix. -/
theorem stripHttps_scheme (rest : List Char) (h : hasHttps rest = false) :
    stripHttps ('h' :: 't' :: 't' :: 'p' :: 's' :: ':' :: '/' :: '/' :: rest) = rest := by
  rw [stripHttps.eq_1, stripHttps_of_not_hasHttps rest h]

/-! ## Claim theorems -/

/-- C1: for every namespace/service-name pair, the service-account-to-role
trust condition uses variable `<issuer with its https:// scheme stripped>:sub`
(for issuers of the form `https://rest` with no further occurrence of
`https://`) and value `system:serviceaccount:<namespace>:<service-name>`;
in particular for issuer `https://x.eks.amazonaws.com/id/ABC`, namespace
`demoapp` and service name `demoapp-app`, the variable is
`x.eks.amazonaws.com/id/ABC:sub` and the value is
`system:serviceaccount:demoapp:demoapp-app`. -/
theorem c1_trust_condition (ns nm : String) (rest : List Char)
    (h : hasHttps rest = false) :
    (serviceRoleTrustCondition
        (String.mk ('h' :: 't' :: 't' :: 'p' :: 's' :: ':' :: '/' :: '/' :: rest)) ns nm).variable_
      = String.mk rest ++ ":sub" ∧
    (serviceRoleTrustCondition
        (String.mk ('h' :: 't' :: 't' :: 'p' :: 's' :: ':' :: '/' :: '/' :: rest)) ns nm).values
      = ["system:serviceaccount:" ++ ns ++ ":" ++ nm] ∧
    (serviceRoleTrustCondition "https://x.eks.amazonaws.com/id/ABC" "demoapp" "demoapp-app").variable_
      = "x.eks.amazonaws.com/id/ABC:sub" ∧
    (serviceRoleTrustCondition "https://x.eks.amazonaws.com/id/ABC" "demoapp" "demoapp-app").values
      = ["system:serviceaccount:demoapp:demoapp-app"] := by
  refine ⟨?_, rfl, by decide, by decide⟩
  show String.mk (stripHttps ('h' :: 't' :: 't' :: 'p' :: 's' :: ':' :: '/' :: '/' :: rest)) ++ ":sub"
      = String.mk rest ++ ":sub"
  rw [stripHttps_scheme rest h]

/-- Witness for C1 at the round-trip inputs of the spec. -/
theorem c1_trust_condition_witness :
    (serviceRoleTrustCondition
        (String.mk ('h' :: 't' :: 't' :: 'p' :: 's' :: ':' :: '/' :: '/' :: "x.eks.amazonaws.com/id/ABC".data))
        "demoapp" "demoapp-app").variable_
      = String.mk "x.eks.amazonaws.com/id/ABC".data ++ ":sub" ∧
    (serviceRoleTrustCondition
        (String.mk ('h' :: 't' :: 't' :: 'p' :: 's' :: ':' :: '/' :: '/' :: "x.eks.amazonaws.com/id/ABC".data))
        "demoapp" "demoapp-app").values
      = ["system:serviceaccount:" ++ "demoapp" ++ ":" ++ "demoapp-app"] ∧
    (serviceRoleTrustCondition "https://x.eks.amazonaws.com/id/ABC" "demoapp" "demoapp-app").variable_
      = "x.eks.amazonaws.com/id/ABC:sub" ∧
    (serviceRoleTrustCondition "https://x.eks.amazonaws.com/id/ABC" "demoapp" "demoapp-app").values
      = ["system:serviceaccount:demoapp:demoapp-app"] :=
  c1_trust_condition "demoapp" "demoapp-app" "x.eks.amazonaws.com/id/ABC".data (by decide)

/-- C2 counterexample: with declared replica bounds (2, 4), the produced HPA
spec has min_replicas 1 and max_replicas 6, so it does not equal the declared
bounds — the claim as stated is false. -/
theorem c2_autoscaler_counterexample :
    autoscalingSpec.min_replicas = 1 ∧ autoscalingSpec.max_replicas = 6 ∧
    ¬(autoscalingSpec.min_replicas = declaredBoundsExample.1 ∧
      autoscalingSpec.max_replicas = declaredBoundsExample.2) := by
  decide

/-- C2 (amended): the produced HorizontalPodAutoscaler spec has min_replicas
fixed at 1 and max_replicas fixed at 6, independent of any declared replica
bounds (hence min ≤ max holds), with CPU and memory Resource metrics whose
targets have type Utilization and average_value "60". -/
theorem c2_autoscaler_fixed_bounds :
    autoscalingSpec.min_replicas = 1 ∧
    autoscalingSpec.max_replicas = 6 ∧
    autoscalingSpec.min_replicas ≤ autoscalingSpec.max_replicas ∧
    autoscalingSpec.metrics.map (fun m => m.resource.name) = ["cpu", "memory"] ∧
    autoscalingSpec.metrics.all
      (fun m => m.type == "Resource" && m.resource.target.type == "Utilization"
        && m.resource.target.average_value == "60") = true := by
  decide

/-- C3 counterexample: evaluating the application stack entrypoint with stack
name `demoapp` declares the two stack references and then the `demoapp`
Namespace resource (trace position 2) before the `KubernetesServiceArgs` call
raises its TypeError (trace position 3) — so the claim that evaluation fails
before any resource is declared is false. -/
theorem c3_counterexample :
    appStackEvalTrace "demoapp"
      = [ AppStackEvent.stackReference "organization/eks/eks-demo"
        , AppStackEvent.stackReference "organization/db/db-demo"
        , AppStackEvent.namespaceDecl "demoapp-ns" "demoapp"
        , AppStackEvent.typeError "KubernetesServiceArgs" ] ∧
    (appStackEvalTrace "demoapp")[2]?
      = some (AppStackEvent.namespaceDecl "demoapp-ns" "demoapp") ∧
    (appStackEvalTrace "demoapp")[3]?
      = some (AppStackEvent.typeError "KubernetesServiceArgs") := by
  decide

/-- C3 (amended): for every configuration, the application stack entrypoint's
`KubernetesServiceArgs(...)` call passes keyword arguments `min_replicas` and
`max_replicas` that the constructor does not declare and omits the required
`replicas` parameter, so Python keyword binding fails (TypeError)
independently of all input values and the KubernetesService component and its
resources are never declared — but only after the two stack references and
the demoapp Namespace resource have been declared. -/
theorem c3_args_call_type_error (envName : String) :
    kwargsBindOk kubernetesServiceArgsParams appStackCallKwargs = false ∧
    appStackCallKwargs.contains "min_replicas" = true ∧
    appStackCallKwargs.contains "max_replicas" = true ∧
    kubernetesServiceArgsParams.any (fun p => p.name == "min_replicas") = false ∧
    kubernetesServiceArgsParams.any (fun p => p.name == "max_replicas") = false ∧
    kubernetesServiceArgsParams.any (fun p => p.name == "replicas" && !p.has_default) = true ∧
    appStackCallKwargs.contains "replicas" = false ∧
    appStackEvalTrace envName
      = [ AppStackEvent.stackReference "organization/eks/eks-demo"
        , AppStackEvent.stackReference "organization/db/db-demo"
        , AppStackEvent.namespaceDecl (envName ++ "-ns") "demoapp"
        , AppStackEvent.typeError "KubernetesServiceArgs" ] := by
  refine ⟨by decide, by decide, by decide, by decide, by decide, by decide, by decide, ?_⟩
  simp [appStackEvalTrace,
    show kwargsBindOk kubernetesServiceArgsParams appStackCallKwargs = false from by decide]

/-- C4: a production-flagged database cluster sets skip_final_snapshot to
false and a non-empty final snapshot identifier; a non-production one sets
skip_final_snapshot to true. -/
theorem c4_snapshot (name : String) :
    ((serverlessDbSnapshotArgs name true).skip_final_snapshot = false ∧
      ∃ s, (serverlessDbSnapshotArgs name true).final_snapshot_identifier = some s ∧ s ≠ "") ∧
    (serverlessDbSnapshotArgs name false).skip_final_snapshot = true := by
  refine ⟨⟨rfl, ⟨name ++ "-db-cluster", rfl, ?_⟩⟩, rfl⟩
  intro hcontra
  have hlen := congrArg String.length hcontra
  rw [String.length_append] at hlen
  simp at hlen
  exact absurd hlen.2 (by decide)

/-- Witness for C4 at a concrete component name. -/
theorem c4_snapshot_witness :
    ((serverlessDbSnapshotArgs "demo-db" true).skip_final_snapshot = false ∧
      ∃ s, (serverlessDbSnapshotArgs "demo-db" true).final_snapshot_identifier = some s ∧ s ≠ "") ∧
    (serverlessDbSnapshotArgs "demo-db" false).skip_final_snapshot = true :=
  c4_snapshot "demo-db"

/-- C5: a DNS record is created for hostname entry `i` iff its
`create_record` key is not explicitly False — entries with the key unset
default to True; entries with `create_record = False` get no record. -/
theorem c5_record_iff (n lb : String) (l : List HostnameEntry) (i : Nat)
    (h : i < l.length) :
    (∃ d, (i, d) ∈ hostnameRecords n lb l) ↔ l[i].create_record ≠ some false := by
  have hlen : l.length > 0 := Nat.lt_of_le_of_lt (Nat.zero_le i) h
  unfold hostnameRecords
  rw [if_pos hlen]
  constructor
  · rintro ⟨d, hd⟩
    rw [List.mem_filterMap] at hd
    obtain ⟨⟨j, rec⟩, hmem, hf⟩ := hd
    by_cases hc : rec.create_record.getD true
    · rw [if_pos hc] at hf
      injection hf with hf1
      injection hf1 with hj hd2
      have hj2 : j = i := hj
      rw [hj2] at hmem
      rw [List.mk_mem_enum_iff_getElem?] at hmem
      rw [List.getElem?_eq_getElem h] at hmem
      have hrec : rec = l[i] := (Option.some.inj hmem).symm
      rw [hrec] at hc
      cases hcr : l[i].create_record with
      | none => simp
      | some b =>
        cases b with
        | true => simp
        | false =>
          rw [hcr] at hc
          simp at hc
    · rw [if_neg hc] at hf
      exact absurd hf (by simp)
  · intro hne
    have hc : l[i].create_record.getD true = true := by
      cases hcr : l[i].create_record with
      | none => rfl
      | some b =>
        cases b with
        | true => rfl
        | false => exact absurd hcr hne
    refine ⟨{ resource_name := n ++ "-record" ++ toString i
              record_name := l[i].name
              type := "CNAME"
              ttl := 300
              records := [lb] }, ?_⟩
    rw [List.mem_filterMap]
    refine ⟨(i, l[i]), ?_, ?_⟩
    · rw [List.mk_mem_enum_iff_getElem?, List.getElem?_eq_getElem h]
    · rw [if_pos hc]

/-- Witness for C5: on the list [entry with key unset, entry with
create_record = False], entry 0 gets a record. -/
theorem c5_record_iff_witness :
    ∃ d, (0, d) ∈ hostnameRecords "demoapp-app" "lb.example.com"
      [ { name := "a.cloudlan.net", create_record := none }
      , { name := "b.cloudlan.net", create_record := some false } ] :=
  (c5_record_iff "demoapp-app" "lb.example.com"
      [ { name := "a.cloudlan.net", create_record := none }
      , { name := "b.cloudlan.net", create_record := some false } ] 0
      (by decide)).mpr (by decide)

/-- C6: with an empty service-permission list neither the standalone IAM
policy nor the role-policy attachment is declared; the policy exists iff the
permission list is non-empty. -/
theorem c6_policy_conditional (n : String) (perms : List GetPolicyDocumentStatementArgs) :
    (perms = [] →
      (kubernetesServiceIam n perms).policy = none ∧
      (kubernetesServiceIam n perms).role_policy_attachment = none) ∧
    ((kubernetesServiceIam n perms).policy ≠ none ↔ perms ≠ []) := by
  constructor
  · intro hempty
    subst hempty
    exact ⟨rfl, rfl⟩
  · constructor
    · intro hpol hempty
      subst hempty
      exact hpol rfl
    · intro hne
      have hlen : perms.length > 0 := List.length_pos.mpr hne
      simp only [kubernetesServiceIam, if_pos hlen]
      exact Option.some_ne_none _

/-- Witness for C6 at the application stack's own call, which passes
`service_permissions=[]`. -/
theorem c6_policy_conditional_witness :
    (kubernetesServiceIam "demoapp-app" []).policy = none ∧
    (kubernetesServiceIam "demoapp-app" []).role_policy_attachment = none :=
  (c6_policy_conditional "demoapp-app" []).1 rfl

/-- C7 counterexample: a database-stack configuration that contains
`db_major_version` but lacks `cidr_blocks` (a parameter `RdsDbArgs` declares
without a default) evaluates successfully, proceeding with `none` instead of
failing — so the claim that no stack silently proceeds with a missing value
for a required input is false. -/
theorem c7_counterexample :
    dbStackEval [("db_major_version", "8.0")]
        [("private_subnet_ids", "subnet-a,subnet-b"), ("vpc_id", "vpc-123")]
      = Except.ok
          { cidr_blocks := none
            major_version := "8.0"
            private_subnets := "subnet-a,subnet-b"
            storage_size := none
            vpc_id := "vpc-123"
            zone_name := "cloudlan.net" } ∧
    config_get [("db_major_version", "8.0")] "cidr_blocks" = none :=
  ⟨rfl, rfl⟩

/-- C7 (amended): inputs read via `require` / `require_output` fail the whole
stack evaluation when absent, before any resource declaration is reached; but
inputs read via `get` / `get_object` (the db stack's `cidr_blocks` and
`db_storage_size`) resolve to None when absent and the stack silently
proceeds. -/
theorem c7_mixed_failfast (cfg outs : List (String × String)) :
    (config_get cfg "db_major_version" = none →
      dbStackEval cfg outs
        = Except.error "Missing required configuration variable db_major_version") ∧
    (∀ mv, config_get cfg "db_major_version" = some mv →
      (outs.find? (fun p => p.1 == "private_subnet_ids")).map (fun p => p.2) = none →
      dbStackEval cfg outs
        = Except.error "Required output private_subnet_ids does not exist on stack") ∧
    (∀ mv ps vid, config_get cfg "db_major_version" = some mv →
      (outs.find? (fun p => p.1 == "private_subnet_ids")).map (fun p => p.2) = some ps →
      (outs.find? (fun p => p.1 == "vpc_id")).map (fun p => p.2) = some vid →
      dbStackEval cfg outs
        = Except.ok
            { cidr_blocks := config_get cfg "cidr_blocks"
              major_version := mv
              private_subnets := ps
              storage_size := config_get cfg "db_storage_size"
              vpc_id := vid
              zone_name := "cloudlan.net" }) := by
  refine ⟨?_, ?_, ?_⟩
  · intro hmv
    simp [dbStackEval, config_require, hmv]
  · intro mv hmv hps
    simp [dbStackEval, config_require, require_output, hmv, hps]
  · intro mv ps vid hmv hps hvid
    simp [dbStackEval, config_require, require_output, hmv, hps, hvid]

/-- Witness for C7 (amended): a configuration missing `db_major_version`
fails the evaluation. -/
theorem c7_mixed_failfast_witness :
    dbStackEval [] []
      = Except.error "Missing required configuration variable db_major_version" :=
  (c7_mixed_failfast [] []).1 (by decide)

/-- C8: the random admin password declares its `result` an additional secret
output, and the value arriving at each of its three sinks (the cluster's
master_password, the Secrets Manager secret version's secret_string, the
db_admin_password stack output) is secret-flagged. -/
theorem c8_password_secret (pw : String) :
    db_password.additional_secret_outputs.contains "result" = true ∧
    (∀ sink ∈ dbPasswordSinks, (sinkValue pw sink).secret = true) ∧
    (cluster_master_password pw).secret = true ∧
    (db_proxy_secret_version_secret_string pw).secret = true ∧
    (export_db_admin_password pw).secret = true := by
  refine ⟨rfl, ?_, rfl, rfl, rfl⟩
  intro sink hsink
  cases sink <;> rfl

/-- Witness for C8 at a concrete password value. -/
theorem c8_password_secret_witness :
    db_password.additional_secret_outputs.contains "result" = true ∧
    (∀ sink ∈ dbPasswordSinks, (sinkValue "hunter2" sink).secret = true) ∧
    (cluster_master_password "hunter2").secret = true ∧
    (db_proxy_secret_version_secret_string "hunter2").secret = true ∧
    (export_db_admin_password "hunter2").secret = true :=
  c8_password_secret "hunter2"

/-- C9: the network stack with base CIDR 10.0.0.0/16 and a two-zone list
exports exactly 2 public subnet ids, 2 private subnet ids and 2 NAT gateway
addresses. -/
theorem c9_network_counts :
    (vpcStackExports "vpc-demo" "10.0.0.0/16" ["us-east-1a", "us-east-1f"]).public_subnet_ids.length = 2 ∧
    (vpcStackExports "vpc-demo" "10.0.0.0/16" ["us-east-1a", "us-east-1f"]).private_subnet_ids.length = 2 ∧
    (vpcStackExports "vpc-demo" "10.0.0.0/16" ["us-east-1a", "us-east-1f"]).nat_gateway_ips.length = 2 := by
  decide

/-- C10: for every worker role input, the aws-auth mapRoles list contains the
supplied worker node role entry and, unconditionally, the hardcoded entry
granting arn:aws:iam::389169665533:role/ci-role membership in
system:masters; `apply` preserves nothing else, so the grant is independent
of all inputs. -/
theorem c10_hardcoded_ci_role (w : String) :
    (∃ e ∈ get_node_roles w, e.rolearn = w ∧ e.groups = ["system:bootstrappers", "system:nodes"]) ∧
    ciRoleEntry ∈ get_node_roles w ∧
    ciRoleEntry.rolearn = "arn:aws:iam::389169665533:role/ci-role" ∧
    ciRoleEntry.groups = ["system:masters"] ∧
    (cluster_auth_map_roles { value := w, secret := false }).value = get_node_roles w := by
  refine ⟨⟨{ rolearn := w
             username := "system:node:\x7b\x7bEC2PrivateDNSName\x7d\x7d"
             groups := ["system:bootstrappers", "system:nodes"] }, ?_, rfl, rfl⟩, ?_, rfl, rfl, rfl⟩
  · exact List.mem_cons_self _ _
  · exact List.mem_cons_of_mem _ (List.mem_cons_self _ _)

end DemoApp
